import Mathlib

/-!
Shallow embedding of the eRPC packet-loss handling path
(pkt_loss_scan_st / pkt_loss_retransmit_st in rpc_pkt_loss.cc) and of
the out-of-band UDP control-channel client (UDPClient::send), together
with theorems checking the specification's statements about them.

Machine integers (size_t) are modelled as Nat; the one place where the
source relies on wrap-around subtraction of two TSC samples is modelled
with an explicit mod 2^64.
-/

namespace erpc

/-- Number of credits each session holds (kSessionCredits; spec default 8). -/
def kSessionCredits : Nat := 8

/-- Session-management retransmission timeout in milliseconds
(kSMTimeoutMs; spec default 1000). -/
def kSMTimeoutMs : Nat := 1000

/-- Fields of a MsgBuffer used by the loss path: the request number and
the number of packets the message spans. -/
structure MsgBuffer where
  req_num : Nat
  num_pkts : Nat
deriving DecidableEq

/-- Client-side per-SSlot counters: packets transmitted, packets
received, and the TSC at which num_rx last advanced. -/
structure ClientInfo where
  num_tx : Nat
  num_rx : Nat
  progress_tsc : Nat
deriving DecidableEq

/-- One concurrent request slot of a session, as seen by the loss scan:
the outbound MsgBuffer (none when no request is outstanding) and the
client-side counters. -/
structure SSlot where
  tx_msgbuf : Option MsgBuffer
  client_info : ClientInfo
deriving DecidableEq

/-- Session-level client-side state used by the loss path: the credit
counter, the congestion-control retransmission counter, and the TSC at
which the last session-management request was sent. -/
structure SessionClientInfo where
  credits : Nat
  num_retransmissions : Nat
  sm_req_ts : Nat
deriving DecidableEq

/-- Session states (SessionState in the source). -/
inductive SessionState where
  | kConnected : SessionState
  | kConnectInProgress : SessionState
  | kDisconnectInProgress : SessionState
  | kResetInProgress : SessionState
deriving DecidableEq

/-- A session as seen by the packet-loss scan: role, state, SSlot array
and client-side info. -/
structure Session where
  is_server : Bool
  state : SessionState
  sslot_arr : List SSlot
  client_info : SessionClientInfo
deriving DecidableEq

/-- Wrap-around subtraction of two 64-bit TSC samples, as computed by
size_t subtraction in the source. -/
def tsc_sub (a b : Nat) : Nat :=
  (a + 2 ^ 64 - b) % 2 ^ 64

/-- Per-slot body of the kConnected branch of pkt_loss_scan_st: a slot
is handed to pkt_loss_retransmit_st when it has an outstanding request
(tx_msgbuf is not null), at least one packet has been sent, and the
cycles elapsed since progress_tsc exceed rpc_rto_cycles. -/
def slot_loss_suspected (ev_loop_tsc rpc_rto_cycles : Nat) (sslot : SSlot) : Bool :=
  match sslot.tx_msgbuf with
  | none => false
  | some _ =>
    if sslot.client_info.num_tx = 0 then false
    else decide (tsc_sub ev_loop_tsc sslot.client_info.progress_tsc > rpc_rto_cycles)

/-- Actions the packet-loss scan can take for one session: invoke
pkt_loss_retransmit_st on a slot, or resend the session-management
request datagram. -/
inductive ScanAction where
  | retransmit : SSlot → ScanAction
  | send_sm_req : ScanAction
deriving DecidableEq

/-- One iteration of the session loop of pkt_loss_scan_st, translated
from the source: null entries and server sessions are skipped; Connected
sessions get datapath loss detection per SSlot; ConnectInProgress and
DisconnectInProgress sessions get session-management loss detection via
the elapsed-milliseconds test; ResetInProgress sessions get nothing.
to_msec abstracts the cycle-to-millisecond conversion (floating point in
the source) and rdtsc_now is the rdtsc() sample taken in the branch. -/
def pkt_loss_scan_session (ev_loop_tsc rpc_rto_cycles : Nat) (to_msec : Nat → Nat)
    (rdtsc_now : Nat) (session : Option Session) : List ScanAction :=
  match session with
  | none => []
  | some s =>
    if s.is_server then []
    else
      match s.state with
      | SessionState.kConnected =>
          (s.sslot_arr.filter (slot_loss_suspected ev_loop_tsc rpc_rto_cycles)).map
            ScanAction.retransmit
      | SessionState.kConnectInProgress =>
          if to_msec (tsc_sub rdtsc_now s.client_info.sm_req_ts) > kSMTimeoutMs then
            [ScanAction.send_sm_req]
          else []
      | SessionState.kDisconnectInProgress =>
          if to_msec (tsc_sub rdtsc_now s.client_info.sm_req_ts) > kSMTimeoutMs then
            [ScanAction.send_sm_req]
          else []
      | SessionState.kResetInProgress => []

/-- Whole-vector packet-loss scan: the concatenation of the per-session
scans over the session vector. -/
def pkt_loss_scan_st (ev_loop_tsc rpc_rto_cycles : Nat) (to_msec : Nat → Nat)
    (rdtsc_now : Nat) (session_vec : List (Option Session)) : List ScanAction :=
  (session_vec.map (pkt_loss_scan_session ev_loop_tsc rpc_rto_cycles to_msec rdtsc_now)).flatten

/-- Build-time configuration consulted by pkt_loss_retransmit_st:
congestion-control pacing, the testing build flag, the run-time
hard_wheel_bypass fault flag, and the transport MTU. -/
structure Config where
  kCcPacing : Bool
  kTesting : Bool
  hard_wheel_bypass : Bool
  kMTU : Nat
deriving DecidableEq

/-- Modelled from the spec: req_pkts_pending is not under src; per the
spec the direct re-injection choice is based on whether we were still
sending the request, i.e. fewer request packets have been transmitted
than the request message spans. -/
def req_pkts_pending (req_num_pkts : Nat) (ci : ClientInfo) : Bool :=
  ci.num_tx < req_num_pkts

/-- Externally visible calls made by pkt_loss_retransmit_st, in program
order: draining the TX batch (do_tx_burst_st), transport->tx_flush(),
enqueue_wheel_st with a packet size, kick_req_st and kick_rfr_st. -/
inductive Event where
  | do_tx_burst : Event
  | tx_flush : Event
  | enqueue_wheel : Nat → Event
  | kick_req : Event
  | kick_rfr : Event
deriving DecidableEq

/-- State read and written by pkt_loss_retransmit_st: the slot's client
counters, the session credit counter, the congestion-control
retransmission counter, the pending TX batch size, the timing-wheel
contents for this slot (packet sizes; enqueue_wheel_st is modelled from
the spec as pure insertion), and the event-loop TSC sample. -/
structure RetxState where
  ci : ClientInfo
  credits : Nat
  num_retransmissions : Nat
  tx_batch_i : Nat
  wheel : List Nat
  ev_loop_tsc : Nat
deriving DecidableEq

/-- Rollback phase of pkt_loss_retransmit_st (the delta > 0 case, before
draining): bump the retransmission counter, return delta credits, set
num_tx to num_rx and reset progress_tsc to the event-loop TSC. -/
def retx_rollback (st : RetxState) : RetxState :=
  { st with
    num_retransmissions := st.num_retransmissions + 1
    credits := st.credits + (st.ci.num_tx - st.ci.num_rx)
    ci := { st.ci with num_tx := st.ci.num_rx, progress_tsc := st.ev_loop_tsc } }

/-- Drain-and-re-inject phase of pkt_loss_retransmit_st: drain the TX
batch if nonempty, flush the transport, then either enqueue delta
packets of size kMTU into the wheel and consume delta credits (when
kCcPacing, or when testing without the hard wheel bypass fault), or kick
directly, choosing kick_req_st when request packets are still pending
and kick_rfr_st otherwise. -/
def retx_drain_and_reinject (cfg : Config) (req_num_pkts delta : Nat)
    (st : RetxState) : RetxState × List Event :=
  let st1 := if 0 < st.tx_batch_i then { st with tx_batch_i := 0 } else st
  let tr1 := (if 0 < st.tx_batch_i then [Event.do_tx_burst] else []) ++ [Event.tx_flush]
  if cfg.kCcPacing || (cfg.kTesting && !cfg.hard_wheel_bypass) then
    ({ st1 with
        wheel := st1.wheel ++ List.replicate delta cfg.kMTU
        credits := st1.credits - delta },
     tr1 ++ List.replicate delta (Event.enqueue_wheel cfg.kMTU))
  else
    if req_pkts_pending req_num_pkts st1.ci then (st1, tr1 ++ [Event.kick_req])
    else (st1, tr1 ++ [Event.kick_rfr])

/-- Translation of pkt_loss_retransmit_st: compute delta = num_tx -
num_rx; when delta is zero, log a false positive and do nothing; when
delta is positive, roll back and then drain and re-inject.
req_num_pkts is tx_msgbuf->num_pkts. The returned list records the
externally visible calls in program order. -/
def pkt_loss_retransmit_st (cfg : Config) (req_num_pkts : Nat)
    (st : RetxState) : RetxState × List Event :=
  let delta := st.ci.num_tx - st.ci.num_rx
  if delta = 0 then (st, [])
  else retx_drain_and_reinject cfg req_num_pkts delta (retx_rollback st)

/-- Shallow embedding of UDPClient::send. The hostname resolution
outcome is the list of resolved endpoints; send_to abstracts the socket
primitive, which receives an endpoint and the buffer length sizeof(T)
and either returns the number of bytes sent or throws (Except.error).
An empty resolution result or a thrown error yields -1; otherwise the
byte count from send_to is returned. The function is total: no
exception propagates. -/
def UDPClient.send {α : Type} (results : List α)
    (send_to : α → Nat → Except String Nat) (sizeofT : Nat) : Int :=
  match results with
  | [] => -1
  | endpoint :: _ =>
    match send_to endpoint sizeofT with
    | Except.ok ret => Int.ofNat ret
    | Except.error _ => -1

/-- Example configuration with congestion-control pacing enabled. -/
def exCfgPacing : Config :=
  { kCcPacing := true, kTesting := false, hard_wheel_bypass := false, kMTU := 1024 }

/-- Example configuration with pacing disabled outside the testing build. -/
def exCfgDirect : Config :=
  { kCcPacing := false, kTesting := false, hard_wheel_bypass := false, kMTU := 1024 }

/-- Example configuration with pacing disabled in the testing build and
the hard wheel bypass fault not set. -/
def exCfgTestingWheel : Config :=
  { kCcPacing := false, kTesting := true, hard_wheel_bypass := false, kMTU := 1024 }

/-- Example retransmission state with num_tx = num_rx = 3. -/
def exStEq : RetxState :=
  { ci := { num_tx := 3, num_rx := 3, progress_tsc := 50 }, credits := 5,
    num_retransmissions := 0, tx_batch_i := 4, wheel := [1024], ev_loop_tsc := 90 }

/-- Example retransmission state with num_tx = 4, num_rx = 1 and a
nonempty TX batch. -/
def exStGap : RetxState :=
  { ci := { num_tx := 4, num_rx := 1, progress_tsc := 50 }, credits := 2,
    num_retransmissions := 7, tx_batch_i := 3, wheel := [], ev_loop_tsc := 90 }

/-- Example SSlot with an outstanding request of which no packet has
been sent yet (num_tx = 0). -/
def exSlotUnsent : SSlot :=
  { tx_msgbuf := some { req_num := 0, num_pkts := 2 },
    client_info := { num_tx := 0, num_rx := 0, progress_tsc := 0 } }

/-- Example SSlot with an outstanding request, two packets sent and one
received. -/
def exSlotStuck : SSlot :=
  { tx_msgbuf := some { req_num := 0, num_pkts := 2 },
    client_info := { num_tx := 2, num_rx := 1, progress_tsc := 10 } }

/-- Example client-side session info. -/
def exSessInfo : SessionClientInfo :=
  { credits := 7, num_retransmissions := 0, sm_req_ts := 0 }

/-- Example connected client session holding only exSlotUnsent. -/
def exSessUnsent : Session :=
  { is_server := false, state := SessionState.kConnected,
    sslot_arr := [exSlotUnsent], client_info := exSessInfo }

/-- Example connected client session holding only exSlotStuck. -/
def exSessStuck : Session :=
  { is_server := false, state := SessionState.kConnected,
    sslot_arr := [exSlotStuck], client_info := exSessInfo }

/-- Example client session in ConnectInProgress. -/
def exSessConnecting : Session :=
  { is_server := false, state := SessionState.kConnectInProgress,
    sslot_arr := [], client_info := exSessInfo }

/-- Example client session in ResetInProgress. -/
def exSessReset : Session :=
  { is_server := false, state := SessionState.kResetInProgress,
    sslot_arr := [exSlotStuck], client_info := exSessInfo }

/-- Claim C4: calling pkt_loss_retransmit_st with num_tx equal to num_rx
(delta zero) changes nothing: credits, num_tx, num_rx, progress_tsc, the
retransmission counter, the wheel and the TX batch are returned
unchanged, and the call trace is empty, so no TX burst, flush, wheel
insertion or kick is issued. -/
theorem pkt_loss_retransmit_delta_zero_noop (cfg : Config) (req_num_pkts : Nat)
    (st : RetxState) (h : st.ci.num_tx = st.ci.num_rx) :
    pkt_loss_retransmit_st cfg req_num_pkts st = (st, []) := by
  unfold pkt_loss_retransmit_st
  simp [h]

/-- Witness for C4 at a concrete state with num_tx = num_rx = 3. -/
theorem pkt_loss_retransmit_delta_zero_noop_witness :
    exStEq.ci.num_tx = exStEq.ci.num_rx
    ∧ pkt_loss_retransmit_st exCfgPacing 2 exStEq = (exStEq, []) :=
  ⟨rfl, pkt_loss_retransmit_delta_zero_noop exCfgPacing 2 exStEq rfl⟩

/-- Claim C2: with delta = num_tx - num_rx positive,
pkt_loss_retransmit_st factors through the rollback phase, and that
rollback increases the session credit counter by delta, sets num_tx
equal to num_rx, resets progress_tsc to the event-loop TSC, and
increments the retransmission counter by exactly one. -/
theorem pkt_loss_retransmit_rollback_effect (cfg : Config) (req_num_pkts : Nat)
    (st : RetxState) (h : st.ci.num_rx < st.ci.num_tx) :
    pkt_loss_retransmit_st cfg req_num_pkts st
      = retx_drain_and_reinject cfg req_num_pkts (st.ci.num_tx - st.ci.num_rx)
          (retx_rollback st)
    ∧ (retx_rollback st).credits = st.credits + (st.ci.num_tx - st.ci.num_rx)
    ∧ (retx_rollback st).ci.num_tx = st.ci.num_rx
    ∧ (retx_rollback st).ci.num_rx = st.ci.num_rx
    ∧ (retx_rollback st).ci.progress_tsc = st.ev_loop_tsc
    ∧ (retx_rollback st).num_retransmissions = st.num_retransmissions + 1 := by
  refine ⟨?_, rfl, rfl, rfl, rfl, rfl⟩
  unfold pkt_loss_retransmit_st
  have hne : ¬ (st.ci.num_tx - st.ci.num_rx = 0) := by omega
  simp [hne]

/-- Witness for C2 at a concrete state with num_tx = 4, num_rx = 1. -/
theorem pkt_loss_retransmit_rollback_effect_witness :
    exStGap.ci.num_rx < exStGap.ci.num_tx
    ∧ (retx_rollback exStGap).credits = 5
    ∧ (retx_rollback exStGap).ci.num_tx = 1
    ∧ (retx_rollback exStGap).ci.progress_tsc = 90
    ∧ (retx_rollback exStGap).num_retransmissions = 8 :=
  ⟨by decide,
   by
    have h := pkt_loss_retransmit_rollback_effect exCfgDirect 6 exStGap (by decide)
    exact h.2.1,
   by
    have h := pkt_loss_retransmit_rollback_effect exCfgDirect 6 exStGap (by decide)
    exact h.2.2.1,
   by
    have h := pkt_loss_retransmit_rollback_effect exCfgDirect 6 exStGap (by decide)
    exact h.2.2.2.2.1,
   by
    have h := pkt_loss_retransmit_rollback_effect exCfgDirect 6 exStGap (by decide)
    exact h.2.2.2.2.2⟩

/-- Claim C9: when the wheel re-injection path is taken (pacing enabled,
or testing without the hard wheel bypass fault) with delta positive, the
session credit counter is unchanged by pkt_loss_retransmit_st: the delta
credits returned by the rollback are consumed again by the wheel
insertions. -/
theorem pkt_loss_retransmit_wheel_path_credits_unchanged (cfg : Config)
    (req_num_pkts : Nat) (st : RetxState) (h : st.ci.num_rx < st.ci.num_tx)
    (hw : (cfg.kCcPacing || (cfg.kTesting && !cfg.hard_wheel_bypass)) = true) :
    ((pkt_loss_retransmit_st cfg req_num_pkts st).1).credits = st.credits := by
  unfold pkt_loss_retransmit_st retx_drain_and_reinject retx_rollback
  have hne : ¬ (st.ci.num_tx - st.ci.num_rx = 0) := by omega
  by_cases hb : 0 < st.tx_batch_i <;> simp [hne, hw, hb]

/-- Witness for C9 at a concrete state on the pacing path. -/
theorem pkt_loss_retransmit_wheel_path_credits_unchanged_witness :
    exStGap.ci.num_rx < exStGap.ci.num_tx
    ∧ ((pkt_loss_retransmit_st exCfgPacing 6 exStGap).1).credits = exStGap.credits :=
  ⟨by decide,
   pkt_loss_retransmit_wheel_path_credits_unchanged exCfgPacing 6 exStGap
     (by decide) (by decide)⟩

/-- Claim C1: if the credit invariant credits + (num_tx - num_rx) is at
most kSessionCredits on entry to pkt_loss_retransmit_st (the assertion
at its head), it still holds for the state returned, in the delta = 0
case and in the delta > 0 case on both re-injection paths. -/
theorem pkt_loss_retransmit_credit_invariant (cfg : Config) (req_num_pkts : Nat)
    (st : RetxState) (_hle : st.ci.num_rx ≤ st.ci.num_tx)
    (hinv : st.credits + (st.ci.num_tx - st.ci.num_rx) ≤ kSessionCredits) :
    ((pkt_loss_retransmit_st cfg req_num_pkts st).1).credits
      + (((pkt_loss_retransmit_st cfg req_num_pkts st).1).ci.num_tx
          - ((pkt_loss_retransmit_st cfg req_num_pkts st).1).ci.num_rx)
      ≤ kSessionCredits := by
  unfold pkt_loss_retransmit_st retx_drain_and_reinject retx_rollback
  by_cases h0 : st.ci.num_tx - st.ci.num_rx = 0
  · simpa [h0] using hinv
  · by_cases hw : (cfg.kCcPacing || (cfg.kTesting && !cfg.hard_wheel_bypass)) = true <;>
      by_cases hb : 0 < st.tx_batch_i <;>
        by_cases hp : req_pkts_pending req_num_pkts
          { st.ci with num_tx := st.ci.num_rx, progress_tsc := st.ev_loop_tsc } = true <;>
      simp [h0, hw, hb, hp] <;> omega

/-- Witness for C1 at a concrete state with credits 2, num_tx 4,
num_rx 1, on the pacing path. -/
theorem pkt_loss_retransmit_credit_invariant_witness :
    exStGap.ci.num_rx ≤ exStGap.ci.num_tx
    ∧ exStGap.credits + (exStGap.ci.num_tx - exStGap.ci.num_rx) ≤ kSessionCredits
    ∧ ((pkt_loss_retransmit_st exCfgPacing 6 exStGap).1).credits
        + (((pkt_loss_retransmit_st exCfgPacing 6 exStGap).1).ci.num_tx
            - ((pkt_loss_retransmit_st exCfgPacing 6 exStGap).1).ci.num_rx)
        ≤ kSessionCredits :=
  ⟨by decide, by decide,
   pkt_loss_retransmit_credit_invariant exCfgPacing 6 exStGap (by decide) (by decide)⟩

/-- Claim C6: with delta > 0, the call trace of pkt_loss_retransmit_st
is exactly the TX-batch drain (present iff tx_batch_i > 0) followed by
transport tx_flush, followed by the re-injection events; thus the drain
and the flush happen before any rolled-back packet is re-injected. -/
theorem pkt_loss_retransmit_flush_before_reinject (cfg : Config) (req_num_pkts : Nat)
    (st : RetxState) (h : st.ci.num_rx < st.ci.num_tx) :
    ∃ rest, (pkt_loss_retransmit_st cfg req_num_pkts st).2
        = (if 0 < st.tx_batch_i then [Event.do_tx_burst] else [])
            ++ Event.tx_flush :: rest
      ∧ ∀ e ∈ rest, (∃ n, e = Event.enqueue_wheel n)
          ∨ e = Event.kick_req ∨ e = Event.kick_rfr := by
  have hne : ¬ (st.ci.num_tx - st.ci.num_rx = 0) := by omega
  unfold pkt_loss_retransmit_st retx_drain_and_reinject
  by_cases hw : (cfg.kCcPacing || (cfg.kTesting && !cfg.hard_wheel_bypass)) = true
  · refine ⟨List.replicate (st.ci.num_tx - st.ci.num_rx) (Event.enqueue_wheel cfg.kMTU),
      ?_, ?_⟩
    · by_cases hb : 0 < st.tx_batch_i <;> simp [hne, hw, hb, retx_rollback]
    · intro e he
      exact Or.inl ⟨cfg.kMTU, List.eq_of_mem_replicate he⟩
  · by_cases hp : req_pkts_pending req_num_pkts
        { st.ci with num_tx := st.ci.num_rx, progress_tsc := st.ev_loop_tsc } = true
    · refine ⟨[Event.kick_req], ?_, ?_⟩
      · by_cases hb : 0 < st.tx_batch_i <;> simp [hne, hw, hb, hp, retx_rollback]
      · intro e he
        simp at he
        exact Or.inr (Or.inl he)
    · refine ⟨[Event.kick_rfr], ?_, ?_⟩
      · by_cases hb : 0 < st.tx_batch_i <;> simp [hne, hw, hb, hp, retx_rollback]
      · intro e he
        simp at he
        exact Or.inr (Or.inr he)

/-- Witness for C6 at a concrete state with a nonempty TX batch on the
pacing path. -/
theorem pkt_loss_retransmit_flush_before_reinject_witness :
    exStGap.ci.num_rx < exStGap.ci.num_tx
    ∧ ∃ rest, (pkt_loss_retransmit_st exCfgPacing 6 exStGap).2
        = (if 0 < exStGap.tx_batch_i then [Event.do_tx_burst] else [])
            ++ Event.tx_flush :: rest
      ∧ ∀ e ∈ rest, (∃ n, e = Event.enqueue_wheel n)
          ∨ e = Event.kick_req ∨ e = Event.kick_rfr :=
  ⟨by decide,
   pkt_loss_retransmit_flush_before_reinject exCfgPacing 6 exStGap (by decide)⟩

/-- Claim C5 (counterexample): with congestion-control pacing disabled
but the testing build flag set and the hard wheel bypass fault clear,
pkt_loss_retransmit_st on a slot with delta = 1 > 0 re-injects into the
timing wheel and issues no kick_req_st or kick_rfr_st call, contradicting
the claim that with pacing disabled re-injection is direct. -/
theorem pkt_loss_retransmit_reinjection_claim_cex :
    exCfgTestingWheel.kCcPacing = false
    ∧ exStGap.ci.num_rx < exStGap.ci.num_tx
    ∧ Event.kick_req ∉ (pkt_loss_retransmit_st exCfgTestingWheel 6 exStGap).2
    ∧ Event.kick_rfr ∉ (pkt_loss_retransmit_st exCfgTestingWheel 6 exStGap).2
    ∧ Event.enqueue_wheel 1024 ∈ (pkt_loss_retransmit_st exCfgTestingWheel 6 exStGap).2 := by
  decide

/-- Claim C5 (amended): with delta > 0 the trace of
pkt_loss_retransmit_st after the drain and flush is: delta wheel
insertions of kMTU-sized packets when pacing is enabled or the testing
build runs without the hard wheel bypass fault; otherwise exactly one
direct kick, kick_req_st exactly when request packets are still pending
and kick_rfr_st otherwise. -/
theorem pkt_loss_retransmit_reinjection_path (cfg : Config) (req_num_pkts : Nat)
    (st : RetxState) (h : st.ci.num_rx < st.ci.num_tx) :
    (pkt_loss_retransmit_st cfg req_num_pkts st).2
      = (if 0 < st.tx_batch_i then [Event.do_tx_burst] else []) ++ [Event.tx_flush]
        ++ (if cfg.kCcPacing || (cfg.kTesting && !cfg.hard_wheel_bypass) then
              List.replicate (st.ci.num_tx - st.ci.num_rx) (Event.enqueue_wheel cfg.kMTU)
            else if req_pkts_pending req_num_pkts (retx_rollback st).ci then
              [Event.kick_req]
            else [Event.kick_rfr]) := by
  have hne : ¬ (st.ci.num_tx - st.ci.num_rx = 0) := by omega
  unfold pkt_loss_retransmit_st retx_drain_and_reinject
  by_cases hw : (cfg.kCcPacing || (cfg.kTesting && !cfg.hard_wheel_bypass)) = true <;>
    by_cases hb : 0 < st.tx_batch_i <;>
      by_cases hp : req_pkts_pending req_num_pkts
          { st.ci with num_tx := st.ci.num_rx, progress_tsc := st.ev_loop_tsc } = true <;>
    simp [hne, hw, hb, hp, retx_rollback]

/-- Witness for the amended C5 at a concrete state on the direct kick
path with request packets still pending. -/
theorem pkt_loss_retransmit_reinjection_path_witness :
    exStGap.ci.num_rx < exStGap.ci.num_tx
    ∧ (pkt_loss_retransmit_st exCfgDirect 6 exStGap).2
        = (if 0 < exStGap.tx_batch_i then [Event.do_tx_burst] else []) ++ [Event.tx_flush]
          ++ (if exCfgDirect.kCcPacing
                || (exCfgDirect.kTesting && !exCfgDirect.hard_wheel_bypass) then
                List.replicate (exStGap.ci.num_tx - exStGap.ci.num_rx)
                  (Event.enqueue_wheel exCfgDirect.kMTU)
              else if req_pkts_pending 6 (retx_rollback exStGap).ci then
                [Event.kick_req]
              else [Event.kick_rfr]) :=
  ⟨by decide, pkt_loss_retransmit_reinjection_path exCfgDirect 6 exStGap (by decide)⟩

/-- Claim C3 (counterexample): a Connected client slot with an
outstanding request (tx_msgbuf not null) whose elapsed cycles exceed the
RTO is nevertheless not handed to retransmission handling by the scan,
because no packet of it has been sent (num_tx = 0); the scan skips it,
contradicting the claimed if-and-only-if condition. -/
theorem pkt_loss_scan_suspect_iff_cex :
    exSlotUnsent.tx_msgbuf ≠ none
    ∧ tsc_sub 100 exSlotUnsent.client_info.progress_tsc > 1
    ∧ ScanAction.retransmit exSlotUnsent ∉
        pkt_loss_scan_session 100 1 (fun c => c) 0 (some exSessUnsent) := by
  decide

/-- Claim C3 (amended): for a Connected client session, a slot with an
outstanding request is handed to pkt_loss_retransmit_st by the scan if
and only if at least one of its packets has been sent (num_tx nonzero)
and the cycles elapsed since progress_tsc exceed rpc_rto_cycles. -/
theorem pkt_loss_scan_suspect_iff (ev_loop_tsc rpc_rto_cycles : Nat)
    (to_msec : Nat → Nat) (rdtsc_now : Nat) (s : Session)
    (hs : s.is_server = false) (hst : s.state = SessionState.kConnected)
    (sl : SSlot) (hmem : sl ∈ s.sslot_arr) (hmsg : sl.tx_msgbuf ≠ none) :
    ScanAction.retransmit sl ∈
        pkt_loss_scan_session ev_loop_tsc rpc_rto_cycles to_msec rdtsc_now (some s)
      ↔ (sl.client_info.num_tx ≠ 0
          ∧ tsc_sub ev_loop_tsc sl.client_info.progress_tsc > rpc_rto_cycles) := by
  obtain ⟨sv, sstate, arr, sinfo⟩ := s
  dsimp only at hs hst hmem ⊢
  subst hs
  subst hst
  simp only [pkt_loss_scan_session, Bool.false_eq_true, if_false, List.mem_map,
    List.mem_filter]
  constructor
  · rintro ⟨a, ⟨_, hsusp⟩, heq⟩
    cases heq
    cases hm : sl.tx_msgbuf with
    | none => exact absurd hm hmsg
    | some m =>
      rw [slot_loss_suspected, hm] at hsusp
      by_cases h0 : sl.client_info.num_tx = 0
      · rw [if_pos h0] at hsusp
        exact absurd hsusp (by simp)
      · rw [if_neg h0] at hsusp
        exact ⟨h0, by simpa using hsusp⟩
  · rintro ⟨h0, hrto⟩
    refine ⟨sl, ⟨hmem, ?_⟩, rfl⟩
    cases hm : sl.tx_msgbuf with
    | none => exact absurd hm hmsg
    | some m =>
      rw [slot_loss_suspected, hm, if_neg h0]
      simpa using hrto

/-- Witness for the amended C3 at a concrete connected session whose
slot has sent packets and exceeded the RTO. -/
theorem pkt_loss_scan_suspect_iff_witness :
    ScanAction.retransmit exSlotStuck ∈
        pkt_loss_scan_session 100 50 (fun c => c) 0 (some exSessStuck)
      ↔ (exSlotStuck.client_info.num_tx ≠ 0
          ∧ tsc_sub 100 exSlotStuck.client_info.progress_tsc > 50) :=
  pkt_loss_scan_suspect_iff 100 50 (fun c => c) 0 exSessStuck rfl rfl exSlotStuck
    (by decide) (by decide)

/-- Claim C7: for a client session in ConnectInProgress or
DisconnectInProgress, the scan resends the session-management request
datagram if and only if the cycles elapsed since sm_req_ts, converted to
milliseconds, exceed kSMTimeoutMs. -/
theorem pkt_loss_scan_sm_resend_iff (ev_loop_tsc rpc_rto_cycles : Nat)
    (to_msec : Nat → Nat) (rdtsc_now : Nat) (s : Session)
    (hs : s.is_server = false)
    (hst : s.state = SessionState.kConnectInProgress
        ∨ s.state = SessionState.kDisconnectInProgress) :
    ScanAction.send_sm_req ∈
        pkt_loss_scan_session ev_loop_tsc rpc_rto_cycles to_msec rdtsc_now (some s)
      ↔ to_msec (tsc_sub rdtsc_now s.client_info.sm_req_ts) > kSMTimeoutMs := by
  obtain ⟨sv, sstate, arr, sinfo⟩ := s
  dsimp only at hs hst ⊢
  subst hs
  rcases hst with hst | hst <;> subst hst <;>
    by_cases hms : to_msec (tsc_sub rdtsc_now sinfo.sm_req_ts) > kSMTimeoutMs <;>
    simp [pkt_loss_scan_session, hms]

/-- Witness for C7 at a concrete connecting session with a large elapsed
time and the identity millisecond conversion. -/
theorem pkt_loss_scan_sm_resend_iff_witness :
    ScanAction.send_sm_req ∈
        pkt_loss_scan_session 0 0 (fun c => c) 2000 (some exSessConnecting)
      ↔ (fun c : Nat => c) (tsc_sub 2000 exSessConnecting.client_info.sm_req_ts)
          > kSMTimeoutMs :=
  pkt_loss_scan_sm_resend_iff 0 0 (fun c => c) 2000 exSessConnecting rfl (Or.inl rfl)

/-- Claim C8: the packet-loss scan takes no action for a session in
ResetInProgress, none for a server session, and none for a null
session-vector entry. -/
theorem pkt_loss_scan_no_action (ev_loop_tsc rpc_rto_cycles : Nat)
    (to_msec : Nat → Nat) (rdtsc_now : Nat) (s : Session) :
    (s.state = SessionState.kResetInProgress →
        pkt_loss_scan_session ev_loop_tsc rpc_rto_cycles to_msec rdtsc_now (some s) = [])
    ∧ (s.is_server = true →
        pkt_loss_scan_session ev_loop_tsc rpc_rto_cycles to_msec rdtsc_now (some s) = [])
    ∧ pkt_loss_scan_session ev_loop_tsc rpc_rto_cycles to_msec rdtsc_now none = [] := by
  obtain ⟨sv, sstate, arr, sinfo⟩ := s
  dsimp only
  refine ⟨?_, ?_, rfl⟩
  · intro hst
    subst hst
    cases sv <;> simp [pkt_loss_scan_session]
  · intro hs
    subst hs
    simp [pkt_loss_scan_session]

/-- Witness for C8 at a concrete client session in ResetInProgress. -/
theorem pkt_loss_scan_no_action_witness :
    pkt_loss_scan_session 100 1 (fun c => c) 0 (some exSessReset) = [] :=
  (pkt_loss_scan_no_action 100 1 (fun c => c) 0 exSessReset).1 rfl

/-- Claim C10: UDPClient.send returns -1 when hostname resolution yields
no endpoints and when the socket send throws; otherwise it returns the
byte count reported by the socket, which under the datagram-socket
contract (a successful send transmits the whole sizeof(T)-byte buffer)
equals sizeof(T); and in every case the call returns an integer rather
than propagating an exception. -/
theorem UDPClient.send_spec {α : Type} (results : List α)
    (send_to : α → Nat → Except String Nat) (sizeofT : Nat)
    (hudp : ∀ ep n, send_to ep sizeofT = Except.ok n → n = sizeofT) :
    (results = [] → UDPClient.send results send_to sizeofT = -1)
    ∧ (∀ ep rest e, results = ep :: rest → send_to ep sizeofT = Except.error e →
        UDPClient.send results send_to sizeofT = -1)
    ∧ (∀ ep rest n, results = ep :: rest → send_to ep sizeofT = Except.ok n →
        UDPClient.send results send_to sizeofT = Int.ofNat sizeofT)
    ∧ (UDPClient.send results send_to sizeofT = -1
        ∨ UDPClient.send results send_to sizeofT = Int.ofNat sizeofT) := by
  refine ⟨?_, ?_, ?_, ?_⟩
  · rintro rfl
    rfl
  · rintro ep rest e rfl herr
    simp [UDPClient.send, herr]
  · rintro ep rest n rfl hok
    have hn := hudp ep n hok
    subst hn
    simp [UDPClient.send, hok]
  · cases results with
    | nil => exact Or.inl rfl
    | cons ep rest =>
      cases hsd : send_to ep sizeofT with
      | ok n =>
        refine Or.inr ?_
        have hn := hudp ep n hsd
        subst hn
        simp [UDPClient.send, hsd]
      | error e => exact Or.inl (by simp [UDPClient.send, hsd])

/-- Witness for C10: a single resolved endpoint and a socket that
reports the full 16-byte message sent. -/
theorem UDPClient.send_spec_witness :
    UDPClient.send [(0 : Nat)] (fun _ sz => Except.ok sz) 16 = Int.ofNat 16 :=
  (UDPClient.send_spec [(0 : Nat)] (fun _ sz => Except.ok sz) 16
      (fun _ n h => by injection h with h1; exact h1.symm)).2.2.1 0 [] 16 rfl rfl

end erpc
